import Mathlib

/-!
Shallow embedding of the Breez SDK Liquid on-chain wallet engine
(`src/lib/core/src/wallet.rs`), the payment-error wire decoder
(`src/lib/core/src/frb/bridge.io.rs`) and the swap recovery handlers
(spec section 4.3; only their test module declarations are present in the
sources), together with theorems settling the frozen claims about them.

Machine integers are modelled as `Nat`/`Int` with explicit reductions
modulo `2 ^ 64` where the Rust code casts, and checked subtraction where
Rust `u64` subtraction can underflow (`none` models the arithmetic
fault).  External collaborators (the lwk wallet library, the persister,
the signer, the zbase32 codec) are modelled by explicit oracle
parameters or by definitions marked `Modelled from the spec:`.
-/

deriving instance DecidableEq for Except

namespace BreezSdkLiquid

/-- The payment error taxonomy.  The variant set and which variants carry
payload fields are pinned by the wire decoder in
`src/lib/core/src/frb/bridge.io.rs` (`wire_cst_payment_error` and its
`PaymentErrorKind` union) and by spec section 6. -/
inductive PaymentError where
  | alreadyClaimed
  | amountOutOfRange
  | generic (err : String)
  | invalidOrExpiredFees
  | insufficientFunds
  | invalidInvoice
  | invalidPreimage
  | lwkError (err : String)
  | pairsNotFound
  | persistError
  | refundedErr (err : String) (refundTxId : String)
  | sendError (err : String)
  | signerError (err : String)
deriving DecidableEq, Repr

/-- The C struct `wire_cst_payment_error`: an `i32` tag plus the
`PaymentErrorKind` union.  The union fields that each payload-carrying
variant reads are flattened into one record; the decoder only reads the
field(s) selected by the tag, exactly as the `unsafe` union access in
`bridge.io.rs` does. -/
structure WireCstPaymentError where
  tag : Int
  genericErr : String
  lwkErrorErr : String
  refundedErrField : String
  refundedRefundTxId : String
  sendErrorErr : String
  signerErrorErr : String
deriving DecidableEq, Repr

/-- `CstDecode<PaymentError>::cst_decode` for `wire_cst_payment_error`
(`src/lib/core/src/frb/bridge.io.rs` lines 149-195).  The catch-all arm
is `unreachable!()` in the source, i.e. an unrecoverable panic; `none`
models that fault. -/
def cst_decode_payment_error (w : WireCstPaymentError) : Option PaymentError :=
  if w.tag = 0 then some .alreadyClaimed
  else if w.tag = 1 then some .amountOutOfRange
  else if w.tag = 2 then some (.generic w.genericErr)
  else if w.tag = 3 then some .invalidOrExpiredFees
  else if w.tag = 4 then some .insufficientFunds
  else if w.tag = 5 then some .invalidInvoice
  else if w.tag = 6 then some .invalidPreimage
  else if w.tag = 7 then some (.lwkError w.lwkErrorErr)
  else if w.tag = 8 then some .pairsNotFound
  else if w.tag = 9 then some .persistError
  else if w.tag = 10 then some (.refundedErr w.refundedErrField w.refundedRefundTxId)
  else if w.tag = 11 then some (.sendError w.sendErrorErr)
  else if w.tag = 12 then some (.signerError w.signerErrorErr)
  else none

/-! ### Transaction construction (`wallet.rs` `build_drain_tx`,
`build_tx_or_drain_tx`) -/

/-- The balance information of a PSET as returned by
`lwk_wollet.get_details(&pset)`: per-asset signed satoshi deltas
(`pset_details.balance.balances`, a map from asset id to `i64`) and the
fee (`pset_details.balance.fee`, a `u64`). -/
structure PsetDetails where
  balances : List (String × Int)
  fee : Nat
deriving DecidableEq, Repr

/-- A partially signed Elements transaction, reduced to the balance
details the enforcement check reads. -/
structure Pset where
  details : PsetDetails
deriving DecidableEq, Repr

/-- A finalized transaction; `finalize` preserves the pset's balance
content. -/
structure Transaction where
  details : PsetDetails
deriving DecidableEq, Repr

/-- `lwk_wollet.finalize(&mut pset)`, reduced to its content: the
finalized transaction carries the pset's balances and fee. -/
def finalize (p : Pset) : Transaction := ⟨p.details⟩

/-- `pset_details.balance.balances.get(&lwk_wollet.policy_asset()).unwrap_or(&0)`:
BTreeMap lookup of the native (policy) asset's signed delta, defaulting
to `0` when the map has no entry for it. -/
def lookupBalanceSat (balances : List (String × Int)) (asset : String) : Int :=
  match balances.lookup asset with
  | some v => v
  | none => 0

/-- The enforcement arithmetic of `build_drain_tx` (`wallet.rs` line 271):
`(*pset_balance_sat * -1) as u64 - pset_fees`.  The `as u64` cast is
two's-complement reduction modulo `2 ^ 64`; the `u64` subtraction is
checked (`none` = underflow, an arithmetic fault rather than a returned
error). -/
def enforceCheckValue (balanceSat : Int) (fees : Nat) : Option Nat :=
  let negCast : Nat := ((-balanceSat) % ((2 : Int) ^ 64)).toNat
  if negCast < fees then none else some (negCast - fees)

/-- `build_drain_tx` (`wallet.rs` lines 239-284), parameterised by the
oracle results of its external calls:
`recipientValid` is whether `ElementsAddress::from_str` succeeds,
`finishRes` the result of the drain tx builder chain
(`tx_builder().drain_lbtc_wallet().drain_lbtc_to(..).fee_rate(..)
.enable_ct_discount().finish()`), `policyAsset` the wallet's native
asset id, `signOk` whether `signer.sign` succeeds and `finalizeOk`
whether `lwk_wollet.finalize` succeeds.  The outer `Option` is `none`
exactly when the enforcement subtraction underflows (the arithmetic
fault of `enforceCheckValue`); otherwise the function returns the same
`Result` as the source. -/
def build_drain_tx (recipientValid : Bool) (finishRes : Except PaymentError Pset)
    (policyAsset : String) (signOk : Bool) (finalizeOk : Bool)
    (enforce_amount_sat : Option Nat) :
    Option (Except PaymentError Transaction) :=
  if recipientValid then
    match finishRes with
    | .error e => some (.error e)
    | .ok pset =>
      let afterEnforce : Except PaymentError Transaction :=
        if signOk then
          if finalizeOk then .ok (finalize pset)
          else .error (.lwkError "finalize failed")
        else .error (.generic "Failed to sign transaction")
      match enforce_amount_sat with
      | none => some afterEnforce
      | some enforceAmount =>
        let psetBalanceSat := lookupBalanceSat pset.details.balances policyAsset
        match enforceCheckValue psetBalanceSat pset.details.fee with
        | none => none
        | some v =>
          if v = enforceAmount then some afterEnforce
          else some (.error (.generic
            "Drain tx amount doesn't match enforce_amount_sat"))
  else some (.error (.generic "Recipient address is not a valid ElementsAddress"))

/-- `build_tx_or_drain_tx` (`wallet.rs` lines 286-310), parameterised by
the result of the inner `build_tx` call and by the `build_drain_tx`
continuation.  The guard arm
`Err(PaymentError::InsufficientFunds) if asset_id.eq(&lbtc_asset_id)`
retries as a drain with `enforce_amount_sat = Some(amount_sat)`; every
other error falls to the `Err(e) => Err(e)` arm. -/
def build_tx_or_drain_tx (buildTxRes : Except PaymentError Transaction)
    (buildDrainTx : Option Nat → Except PaymentError Transaction)
    (asset_id lbtc_asset_id : String) (amount_sat : Nat) :
    Except PaymentError Transaction :=
  match buildTxRes with
  | .ok tx => .ok tx
  | .error e =>
    if e = .insufficientFunds ∧ asset_id = lbtc_asset_id then
      buildDrainTx (some amount_sat)
    else .error e

/-! ### Full scan (`wallet.rs` `full_scan`) and the persister checkpoint -/

/-- The slice of persister state the wallet engine reads and writes:
the last derivation index handed out (`get_last_derivation_index` /
`set_last_derivation_index`), the last-scanned checkpoint
(`set_last_scanned_derivation_index`) and the reserved-address set. -/
structure ReservedAddress where
  derivationIndex : Nat
  expiryBlockHeight : Nat
deriving DecidableEq, Repr

structure PersisterState where
  lastDerivationIndex : Option Nat
  lastScannedDerivationIndex : Option Nat
  reservedAddresses : List ReservedAddress
deriving DecidableEq, Repr

/-- The error classes of `lwk_wollet::full_scan_to_index_with_electrum_client`
that `full_scan` distinguishes: `UpdateHeightTooOld` versus everything
else. -/
inductive ScanError where
  | updateHeightTooOld
  | other (err : String)
deriving DecidableEq, Repr

/-- The `From<lwk_wollet::Error> for PaymentError` conversion applied by
`e.into()` and by the `?` operator on the retried scan. -/
def ScanError.toPaymentError : ScanError → PaymentError
  | .updateHeightTooOld => .lwkError "UpdateHeightTooOld"
  | .other e => .lwkError e

/-- The observable outcome of one `full_scan` call: the final persister
state, the returned `Result`, how many scan invocations
(`full_scan_to_index_with_electrum_client` calls) were made, and how
many times the wallet store was recreated (`create_wallet` calls made
from inside `full_scan`). -/
structure FullScanResult where
  persister : PersisterState
  result : Except PaymentError Unit
  scansPerformed : Nat
  walletRecreations : Nat
deriving DecidableEq, Repr

/-- `full_scan` (`wallet.rs` lines 359-418), parameterised by oracles:
`electrumRes` models the lazily-created electrum client setup (its `?`
failures exit before the scan), `scanAttempt k idx` the result of the
`k`-th scan invocation at target index `idx`, and `createRes` the
result of `Self::create_wallet` on the wipe-and-retry path.

Control flow mirrored from the source: the pre-scan derivation index is
read once (`get_last_derivation_index()?.unwrap_or_default()`), the
scan target is that index plus a buffer of 5, a first-attempt
`UpdateHeightTooOld` failure recreates the wallet store and retries the
scan once, and the `?` operators inside that retry arm return from the
whole function before the `set_last_scanned_derivation_index` write —
every other path falls through to that write. -/
def full_scan (electrumRes : Except PaymentError Unit)
    (scanAttempt : Nat → Nat → Except ScanError Unit)
    (createRes : Except PaymentError Unit)
    (s : PersisterState) : FullScanResult :=
  match electrumRes with
  | .error e => ⟨s, .error e, 0, 0⟩
  | .ok () =>
    let last_derivation_index := s.lastDerivationIndex.getD 0
    let index_with_buffer := last_derivation_index + 5
    let persisted : PersisterState :=
      { s with lastScannedDerivationIndex := some last_derivation_index }
    match scanAttempt 0 index_with_buffer with
    | .ok () => ⟨persisted, .ok (), 1, 0⟩
    | .error .updateHeightTooOld =>
      match createRes with
      | .error e => ⟨s, .error e, 1, 1⟩
      | .ok () =>
        match scanAttempt 1 index_with_buffer with
        | .error e2 => ⟨s, .error e2.toPaymentError, 2, 1⟩
        | .ok () => ⟨persisted, .ok (), 2, 1⟩
    | .error (.other m) =>
      ⟨persisted, .error (ScanError.other m).toPaymentError, 1, 0⟩

/-! ### Address issuance (`wallet.rs` `next_unused_address`) -/

/-- The slice of `lwk_wollet::Wollet` state that `next_unused_address`
reads: the chain tip height and the index the wallet derives for
`address(None)` (lwk's next-unused index, computed from the wallet's
synced on-chain state; `address` itself is a read-only derivation). -/
structure WolletState where
  tipHeight : Nat
  nextUnusedIndex : Nat
deriving DecidableEq, Repr

/-- `Wollet::address(index)` returns an `AddressResult` holding the
address and its derivation index: the given index when `Some`, the
wallet's next-unused index when `None`.  Addresses are identified by
their derivation index in this model. -/
def wolletAddress (w : WolletState) (index : Option Nat) : Nat :=
  match index with
  | some i => i
  | none => w.nextUnusedIndex

/-- Modelled from the spec: `Persister::next_derivation_index` is not
under `src/`.  Spec section 6 gives the persister's index interface as
`getLastDerivationIndex() -> Option<u32>` / `setLastDerivationIndex(u32)`,
so the next derivation index is the successor of the last persisted one
(and `None` on a fresh persister, letting the descriptor wallet
choose). -/
def next_derivation_index (s : PersisterState) : Option Nat :=
  s.lastDerivationIndex.map (· + 1)

/-- Modelled from the spec: `Persister::next_expired_reserved_address`
is not under `src/`.  Spec sections 3 and 4.1: returns a reserved
address whose expiry height is at or below the tip (expiry inclusive),
oldest/soonest-expired first, and consumes it (removes it from the
reserved set). -/
def selectSoonestExpired (tip : Nat) (rs : List ReservedAddress) :
    Option ReservedAddress :=
  (rs.filter (fun r => r.expiryBlockHeight ≤ tip)).foldl
    (fun acc r =>
      match acc with
      | none => some r
      | some b => if r.expiryBlockHeight < b.expiryBlockHeight then some r else some b)
    none

def next_expired_reserved_address (tip : Nat) (s : PersisterState) :
    Option ReservedAddress × PersisterState :=
  match selectSoonestExpired tip s.reservedAddresses with
  | none => (none, s)
  | some r =>
    (some r,
      { s with reservedAddresses := s.reservedAddresses.eraseP (fun x => x = r) })

/-- `next_unused_address` (`wallet.rs` lines 313-341): consume an
expired reserved address if the persister has one; otherwise derive at
the persister's next index, and persist the derived index as the new
last-derivation-index only when the persister had no index
(`if next_index.is_none()`).  Returns the derivation index of the
issued address together with the updated persister state. -/
def next_unused_address (w : WolletState) (s : PersisterState) :
    Nat × PersisterState :=
  let tip := w.tipHeight
  match next_expired_reserved_address tip s with
  | (some reserved_address, s') => (reserved_address.derivationIndex, s')
  | (none, s') =>
    let next_index := next_derivation_index s'
    let index := wolletAddress w next_index
    let s'' :=
      if next_index.isNone then { s' with lastDerivationIndex := some index }
      else s'
    (index, s'')

/-! ### Message signing (`wallet.rs` `sign_message` / `check_message`) -/

/-- `LN_MESSAGE_PREFIX` (`wallet.rs` line 34): the byte string
`b"Lightning Signed Message:"`, as a list of byte values. -/
def lnMessagePrefixBytes : List Nat :=
  "Lightning Signed Message:".data.map Char.toNat

/-- The bytes of a message string (`message.as_bytes()`), modelled as
the character codes. -/
def strBytes (s : String) : List Nat := s.data.map Char.toNat

/-- Modelled from the spec: SHA-256 (external `bitcoin::hashes` crate).
The spec uses the hash only as a deterministic digest shared by signer
and verifier, so it is modelled as an injective symbolic digest
function. -/
def sha256Model (b : List Nat) : List Nat := b.length :: b

/-- The double-hashed signing input of `sign_message`: SHA-256 of the
fixed domain-separation prefix concatenated with the message, hashed
again (`wallet.rs` lines 421-426). -/
def doubleHashedMsg (message : String) : List Nat :=
  sha256Model (sha256Model (lnMessagePrefixBytes ++ strBytes message))

/-- Modelled from the spec: the external signer capability
(spec section 6, "recoverable ECDSA signing").  A recoverable signature
determines the signing public key given the digest it signed; it is
modelled symbolically as the pair of both. -/
structure RecoverableSig where
  digest : List Nat
  recoveryPubkey : Nat
deriving DecidableEq, Repr

/-- Modelled from the spec: the signer abstraction; only its public key
matters to the signing convention. -/
structure SignerModel where
  pubkey : Nat
deriving DecidableEq, Repr

/-- Modelled from the spec: `signer.sign_ecdsa_recoverable(msg)`. -/
def sign_ecdsa_recoverable (signer : SignerModel) (digest : List Nat) :
    RecoverableSig :=
  ⟨digest, signer.pubkey⟩

/-- Positional digit encoding over an alphabet: the base is the
alphabet size, digits little-endian. -/
def alphaEncode (alpha : List Char) (n : Nat) : String :=
  ⟨(Nat.digits alpha.length n).map (fun d => alpha.getD d ' ')⟩

/-- Inverse of `alphaEncode`: fails on any character outside the
alphabet. -/
def alphaDecode (alpha : List Char) (s : String) : Option Nat :=
  if s.data.all (fun c => c ∈ alpha) then
    some (Nat.ofDigits alpha.length (s.data.map (fun c => (alpha.indexOf c : Nat))))
  else none

/-- The zbase32 alphabet used by the external `zbase32` crate. -/
def zbase32Alphabet : List Char := "ybndrfg8ejkmcpqxot1uwisza345h769".data

/-- Modelled from the spec: `zbase32::encode_full_bytes` over the
serialized recoverable signature ("returned as a base32-family encoded
string").  The signature content is serialized injectively to a natural
number and written in zbase32 digits. -/
def zbase32EncodeSig (sig : RecoverableSig) : String :=
  alphaEncode zbase32Alphabet (Encodable.encode (sig.digest, sig.recoveryPubkey))

/-- Modelled from the spec: the zbase32 decode half used inside the
external `verify`; fails (malformed signature) on characters outside
the alphabet or on a number that is not the serialization of any
signature. -/
def zbase32DecodeSig (s : String) : Option RecoverableSig :=
  match alphaDecode zbase32Alphabet s with
  | none => none
  | some n =>
    match (Encodable.decode n : Option (List Nat × Nat)) with
    | none => none
    | some (d, pk) => some ⟨d, pk⟩

/-- `sign_message` (`wallet.rs` lines 420-430): prefix, double-hash,
sign recoverably, encode as zbase32. -/
def sign_message (signer : SignerModel) (message : String) : String :=
  zbase32EncodeSig (sign_ecdsa_recoverable signer (doubleHashedMsg message))

/-- Modelled from the spec: the external
`lightning::util::message_signing::verify`, which applies the same
message-signing convention (prefix + double hash) as `sign_message`,
recovers the public key from the signature, and returns `false` (never
an error) on a malformed signature. -/
def lightningVerify (message : String) (signature : String) (pk : Nat) : Bool :=
  match zbase32DecodeSig signature with
  | none => false
  | some sig =>
    if sig.digest = doubleHashedMsg message then sig.recoveryPubkey == pk
    else false

/-- The decimal rendering of a public key, with `alphaDecode` as the
parse used by `check_message`; stands for the `PublicKey` string
round-trip of `pubkey()` and `PublicKey::from_str`. -/
def decimalAlphabet : List Char := "0123456789".data

def pubkeyToString (pk : Nat) : String := alphaEncode decimalAlphabet pk

/-- `check_message` (`wallet.rs` lines 432-435): parse the public key
(the `?` operator raises on a malformed key), then delegate to the
external `verify`. -/
def check_message (message : String) (pubkey : String) (signature : String) :
    Except String Bool :=
  match alphaDecode decimalAlphabet pubkey with
  | none => .error "invalid public key"
  | some pk => .ok (lightningVerify message signature pk)

/-! ### Swap recovery handlers (spec section 4.3; only the handlers'
test module declarations are present under `src/`) -/

/-- The swap lifecycle states (spec section 3). -/
inductive SwapState where
  | created
  | waitingConfirmation
  | pending
  | complete
  | refundable
  | refunded
  | expired
  | failed (reason : String)
deriving DecidableEq, Repr

/-- Terminal states are `Complete`, `Refunded`, `Expired`, `Failed`
(spec sections 3 and 4.3). -/
def SwapState.isTerminal : SwapState → Bool
  | .complete => true
  | .refunded => true
  | .expired => true
  | .failed _ => true
  | _ => false

/-- `HistoryTxId` (`recover/handlers/tests/mod.rs`): a (txid, height)
pair with `i32` height; height 0 or below denotes mempool. -/
structure HistoryTxId where
  txid : String
  height : Int
deriving DecidableEq, Repr

def HistoryTxId.isConfirmed (h : HistoryTxId) : Bool := 0 < h.height

/-- Confirmation-height maturity of a transaction at the given tip:
number of confirmations, 0 when unconfirmed or above the tip. -/
def txMaturity (tip : Nat) (h : HistoryTxId) : Nat :=
  if 0 < h.height ∧ h.height ≤ (tip : Int) then tip + 1 - h.height.toNat else 0

/-- The transactions of one swap leg matched (by script membership)
against the swap's claim, refund and lockup scripts. -/
structure MatchedTxs where
  claimTx : Option HistoryTxId
  refundTx : Option HistoryTxId
  lockupTx : Option HistoryTxId
deriving DecidableEq, Repr

/-- One leg of a swap record: its state, the observed txids and the
timeout height (spec section 3, `SwapRecord`). -/
structure SwapLegRecord where
  state : SwapState
  claimTxId : Option String
  refundTxId : Option String
  lockupTxId : Option String
  timeoutHeight : Nat
deriving DecidableEq, Repr

/-- Spec section 4.3 step 1: a confirmed claim completes the swap, a
mempool-only claim moves it to `Pending`; the claim txid is recorded. -/
def applyClaim (r : SwapLegRecord) (c : HistoryTxId) : SwapLegRecord :=
  if c.isConfirmed then { r with state := .complete, claimTxId := some c.txid }
  else { r with state := .pending, claimTxId := some c.txid }

/-- Modelled from the spec: the shared recovery-handler skeleton
(spec section 4.3 steps 1-5 plus the terminal short-circuit of the
idempotence requirement); the handlers themselves are not under `src/`,
only their test module declarations are.  Tie-break when both a claim
and a refund match: the claim takes precedence only with strictly
greater confirmation-height maturity, otherwise the leg fails as
ambiguous. -/
def resolveCore (r : SwapLegRecord) (m : MatchedTxs) (tip : Nat) : SwapLegRecord :=
  match m.claimTx, m.refundTx with
  | some c, some rf =>
    if txMaturity tip rf < txMaturity tip c then applyClaim r c
    else { r with state := .failed "ambiguous-resolution" }
  | some c, none => applyClaim r c
  | none, some rf => { r with state := .refunded, refundTxId := some rf.txid }
  | none, none =>
    if r.timeoutHeight < tip then { r with state := .refundable }
    else
      match m.lockupTx with
      | some l =>
        if l.isConfirmed then { r with state := .pending, lockupTxId := some l.txid }
        else { r with state := .waitingConfirmation, lockupTxId := some l.txid }
      | none => r

/-- Modelled from the spec: one leg's resolution is the skeleton guarded
by the terminal short-circuit. -/
def resolveLeg (r : SwapLegRecord) (m : MatchedTxs) (tip : Nat) : SwapLegRecord :=
  if r.state.isTerminal then r else resolveCore r m tip

/-- Modelled from the spec: the receive-swap recovery handler
(single-leg skeleton instance). -/
def handle_receive_swap (r : SwapLegRecord) (m : MatchedTxs) (tip : Nat) :
    SwapLegRecord :=
  resolveLeg r m tip

/-- Modelled from the spec: the send-swap recovery handler (single-leg
skeleton instance). -/
def handle_send_swap (r : SwapLegRecord) (m : MatchedTxs) (tip : Nat) :
    SwapLegRecord :=
  resolveLeg r m tip

/-- A chain swap holds one record per leg plus the externally visible
combined state (spec section 4.3, chain kinds). -/
structure ChainSwapRecord where
  state : SwapState
  userLeg : SwapLegRecord
  serverLeg : SwapLegRecord
deriving DecidableEq, Repr

/-- Modelled from the spec: the pairwise combination of the two legs'
states — `Complete` only when both legs completed; a failed or refunded
or expired leg dominates; otherwise the least-advanced leg keeps the
swap `Pending`/`Refundable`/`WaitingConfirmation`/`Created`
(spec section 4.3: "destination claim complete but source lockup only
pending still yields overall Pending, never Complete"). -/
def combineStates (a b : SwapState) : SwapState :=
  match a, b with
  | .failed r, _ => .failed r
  | _, .failed r => .failed r
  | .expired, _ => .expired
  | _, .expired => .expired
  | .refunded, _ => .refunded
  | _, .refunded => .refunded
  | .complete, .complete => .complete
  | .complete, b' => combinePartial b'
  | a', .complete => combinePartial a'
  | .pending, _ => .pending
  | _, .pending => .pending
  | .refundable, _ => .refundable
  | _, .refundable => .refundable
  | .waitingConfirmation, _ => .waitingConfirmation
  | _, .waitingConfirmation => .waitingConfirmation
  | .created, .created => .created
where
  /-- One leg complete, the other in the given non-terminal state:
  the swap is still at most pending. -/
  combinePartial : SwapState → SwapState
  | .created => .pending
  | s => if s = .waitingConfirmation then .pending else s

/-- Modelled from the spec: the chain-swap resolution skeleton — the
terminal short-circuit, then steps 1-4 run independently on both legs
and the visible state is the pairwise combination. -/
def resolveChain (r : ChainSwapRecord) (mUser mServer : MatchedTxs) (tip : Nat) :
    ChainSwapRecord :=
  if r.state.isTerminal then r
  else
    let u := resolveLeg r.userLeg mUser tip
    let s := resolveLeg r.serverLeg mServer tip
    { state := combineStates u.state s.state, userLeg := u, serverLeg := s }

/-- Modelled from the spec: the chain-receive-swap recovery handler. -/
def handle_chain_receive_swap (r : ChainSwapRecord) (mUser mServer : MatchedTxs)
    (tip : Nat) : ChainSwapRecord :=
  resolveChain r mUser mServer tip

/-- Modelled from the spec: the chain-send-swap recovery handler. -/
def handle_chain_send_swap (r : ChainSwapRecord) (mUser mServer : MatchedTxs)
    (tip : Nat) : ChainSwapRecord :=
  resolveChain r mUser mServer tip

/-! ## Theorems settling the claims -/

/-- Claim C6: the wire decoder for the payment error maps integer tags 0
through 12, in order, onto exactly the thirteen payment-error variants,
with payload fields carried by exactly the variants listed with
payloads (the payload data is read from the matching union field); for
every tag outside 0..=12, decoding is an unrecoverable fault (the
`unreachable!()` panic, modelled as `none`), not a returned error. -/
theorem cst_decode_payment_error_spec :
    (∀ w : WireCstPaymentError,
      (w.tag = 0 → cst_decode_payment_error w = some .alreadyClaimed) ∧
      (w.tag = 1 → cst_decode_payment_error w = some .amountOutOfRange) ∧
      (w.tag = 2 → cst_decode_payment_error w = some (.generic w.genericErr)) ∧
      (w.tag = 3 → cst_decode_payment_error w = some .invalidOrExpiredFees) ∧
      (w.tag = 4 → cst_decode_payment_error w = some .insufficientFunds) ∧
      (w.tag = 5 → cst_decode_payment_error w = some .invalidInvoice) ∧
      (w.tag = 6 → cst_decode_payment_error w = some .invalidPreimage) ∧
      (w.tag = 7 → cst_decode_payment_error w = some (.lwkError w.lwkErrorErr)) ∧
      (w.tag = 8 → cst_decode_payment_error w = some .pairsNotFound) ∧
      (w.tag = 9 → cst_decode_payment_error w = some .persistError) ∧
      (w.tag = 10 → cst_decode_payment_error w
          = some (.refundedErr w.refundedErrField w.refundedRefundTxId)) ∧
      (w.tag = 11 → cst_decode_payment_error w = some (.sendError w.sendErrorErr)) ∧
      (w.tag = 12 → cst_decode_payment_error w = some (.signerError w.signerErrorErr)) ∧
      ((w.tag < 0 ∨ 12 < w.tag) → cst_decode_payment_error w = none)) ∧
    (∀ e : PaymentError, ∃ w : WireCstPaymentError,
      cst_decode_payment_error w = some e) := by
  constructor
  · intro w
    refine ⟨fun h => by simp [cst_decode_payment_error, h],
      fun h => by simp [cst_decode_payment_error, h],
      fun h => by simp [cst_decode_payment_error, h],
      fun h => by simp [cst_decode_payment_error, h],
      fun h => by simp [cst_decode_payment_error, h],
      fun h => by simp [cst_decode_payment_error, h],
      fun h => by simp [cst_decode_payment_error, h],
      fun h => by simp [cst_decode_payment_error, h],
      fun h => by simp [cst_decode_payment_error, h],
      fun h => by simp [cst_decode_payment_error, h],
      fun h => by simp [cst_decode_payment_error, h],
      fun h => by simp [cst_decode_payment_error, h],
      fun h => by simp [cst_decode_payment_error, h],
      fun h => ?_⟩
    have hne : ∀ k : Int, 0 ≤ k → k ≤ 12 → ¬w.tag = k := by
      intro k hk1 hk2 hk3
      omega
    unfold cst_decode_payment_error
    simp only [hne 0 (by norm_num) (by norm_num), hne 1 (by norm_num) (by norm_num),
      hne 2 (by norm_num) (by norm_num), hne 3 (by norm_num) (by norm_num),
      hne 4 (by norm_num) (by norm_num), hne 5 (by norm_num) (by norm_num),
      hne 6 (by norm_num) (by norm_num), hne 7 (by norm_num) (by norm_num),
      hne 8 (by norm_num) (by norm_num), hne 9 (by norm_num) (by norm_num),
      hne 10 (by norm_num) (by norm_num), hne 11 (by norm_num) (by norm_num),
      hne 12 (by norm_num) (by norm_num), if_false]
  · intro e
    cases e with
    | alreadyClaimed => exact ⟨⟨0, "", "", "", "", "", ""⟩, by decide⟩
    | amountOutOfRange => exact ⟨⟨1, "", "", "", "", "", ""⟩, by decide⟩
    | generic err => exact ⟨⟨2, err, "", "", "", "", ""⟩, by simp [cst_decode_payment_error]⟩
    | invalidOrExpiredFees => exact ⟨⟨3, "", "", "", "", "", ""⟩, by decide⟩
    | insufficientFunds => exact ⟨⟨4, "", "", "", "", "", ""⟩, by decide⟩
    | invalidInvoice => exact ⟨⟨5, "", "", "", "", "", ""⟩, by decide⟩
    | invalidPreimage => exact ⟨⟨6, "", "", "", "", "", ""⟩, by decide⟩
    | lwkError err => exact ⟨⟨7, "", err, "", "", "", ""⟩, by simp [cst_decode_payment_error]⟩
    | pairsNotFound => exact ⟨⟨8, "", "", "", "", "", ""⟩, by decide⟩
    | persistError => exact ⟨⟨9, "", "", "", "", "", ""⟩, by decide⟩
    | refundedErr err refundTxId =>
      exact ⟨⟨10, "", "", err, refundTxId, "", ""⟩, by simp [cst_decode_payment_error]⟩
    | sendError err => exact ⟨⟨11, "", "", "", "", err, ""⟩, by simp [cst_decode_payment_error]⟩
    | signerError err => exact ⟨⟨12, "", "", "", "", "", err⟩, by simp [cst_decode_payment_error]⟩

/-- Witness for C6: tag 4 decodes to `InsufficientFunds` and tag 13 is
the unrecoverable-fault arm. -/
theorem cst_decode_payment_error_spec_witness :
    cst_decode_payment_error ⟨4, "", "", "", "", "", ""⟩ = some .insufficientFunds ∧
    cst_decode_payment_error ⟨13, "", "", "", "", "", ""⟩ = none := by
  constructor
  · exact ((cst_decode_payment_error_spec.1 ⟨4, "", "", "", "", "", ""⟩).2.2.2.2.1) rfl
  · exact ((cst_decode_payment_error_spec.1
      ⟨13, "", "", "", "", "", ""⟩).2.2.2.2.2.2.2.2.2.2.2.2.2) (Or.inr (by norm_num))

/-- Claim C1: `build_tx_or_drain_tx` retries an `InsufficientFunds`
failure of `build_tx` as `build_drain_tx` with
`enforce_amount_sat = Some(amount_sat)` exactly when the requested
asset is the native chain asset; an `InsufficientFunds` failure on a
non-native asset is returned unchanged (no drain is attempted, for any
drain continuation); every other error propagates unchanged for all
assets. -/
theorem build_tx_or_drain_tx_spec
    (drain : Option Nat → Except PaymentError Transaction)
    (asset_id lbtc_asset_id : String) (amount_sat : Nat) :
    (asset_id = lbtc_asset_id →
      build_tx_or_drain_tx (.error .insufficientFunds) drain asset_id lbtc_asset_id
        amount_sat = drain (some amount_sat)) ∧
    (asset_id ≠ lbtc_asset_id →
      build_tx_or_drain_tx (.error .insufficientFunds) drain asset_id lbtc_asset_id
        amount_sat = .error .insufficientFunds) ∧
    (∀ e : PaymentError, e ≠ .insufficientFunds →
      build_tx_or_drain_tx (.error e) drain asset_id lbtc_asset_id amount_sat
        = .error e) := by
  refine ⟨fun h => ?_, fun h => ?_, fun e he => ?_⟩
  · simp [build_tx_or_drain_tx, h]
  · simp [build_tx_or_drain_tx, h]
  · simp only [build_tx_or_drain_tx]
    rw [if_neg]
    rintro ⟨he2, -⟩
    exact he he2

/-- Witness for C1: with the native asset requested, the drain
continuation's value is returned with the enforced amount; with a
non-native asset the insufficient-funds error propagates. -/
theorem build_tx_or_drain_tx_spec_witness :
    build_tx_or_drain_tx (.error .insufficientFunds)
        (fun amt => .error (.generic (toString (amt.getD 0)))) "lbtc" "lbtc" 21
      = .error (.generic "21") ∧
    build_tx_or_drain_tx (.error .insufficientFunds)
        (fun amt => .error (.generic (toString (amt.getD 0)))) "usdt" "lbtc" 21
      = .error .insufficientFunds ∧
    build_tx_or_drain_tx (.error .persistError)
        (fun amt => .error (.generic (toString (amt.getD 0)))) "lbtc" "lbtc" 21
      = .error .persistError := by
  refine ⟨?_, ?_, ?_⟩
  · exact (build_tx_or_drain_tx_spec
      (fun amt => .error (.generic (toString (amt.getD 0)))) "lbtc" "lbtc" 21).1 rfl
  · exact (build_tx_or_drain_tx_spec
      (fun amt => .error (.generic (toString (amt.getD 0)))) "usdt" "lbtc" 21).2.1
      (by decide)
  · exact (build_tx_or_drain_tx_spec
      (fun amt => .error (.generic (toString (amt.getD 0)))) "lbtc" "lbtc" 21).2.2
      .persistError (by simp)

/-- Helper: under the no-underflow precondition (the negated native
balance delta is in `u64` range and at least the fee), the enforcement
arithmetic computes the mathematical net outflow. -/
lemma enforceCheckValue_eq_of_le (bal : Int) (fee : Nat)
    (hneg : bal ≤ 0) (hrange : -bal < 2 ^ 63) (hfee : (fee : Int) ≤ -bal) :
    enforceCheckValue bal fee = some ((-bal - fee).toNat) := by
  unfold enforceCheckValue
  have hmod : (-bal) % ((2 : Int) ^ 64) = -bal :=
    Int.emod_eq_of_lt (by omega) (by omega)
  rw [hmod]
  rw [if_neg (by omega)]
  congr 1
  omega

/-- Helper: when the negated native balance delta is below the fee, the
`u64` subtraction underflows. -/
lemma enforceCheckValue_underflow (bal : Int) (fee : Nat)
    (hneg : bal ≤ 0) (hrange : -bal < 2 ^ 63) (hlt : -bal < fee) :
    enforceCheckValue bal fee = none := by
  unfold enforceCheckValue
  have hmod : (-bal) % ((2 : Int) ^ 64) = -bal :=
    Int.emod_eq_of_lt (by omega) (by omega)
  rw [hmod]
  rw [if_pos (by omega)]

/-- Counterexample for C2: a drain pset whose native balance delta is 0
(no native entry in the balance map) with a nonzero fee makes the
enforcement subtraction underflow — the call neither returns a
transaction nor fails with `Generic`; it is an arithmetic fault. -/
theorem build_drain_tx_enforce_counterexample :
    build_drain_tx true (.ok ⟨⟨[], 1000⟩⟩) "lbtc" true true (some 500) = none ∧
    ¬((∃ tx : Transaction,
        build_drain_tx true (.ok ⟨⟨[], 1000⟩⟩) "lbtc" true true (some 500)
          = some (.ok tx)) ∨
      (∃ msg : String,
        build_drain_tx true (.ok ⟨⟨[], 1000⟩⟩) "lbtc" true true (some 500)
          = some (.error (.generic msg)))) := by
  have h0 : build_drain_tx true (.ok ⟨⟨[], 1000⟩⟩) "lbtc" true true (some 500)
      = none := by decide
  refine ⟨h0, ?_⟩
  rintro (⟨tx, h⟩ | ⟨msg, h⟩) <;> rw [h0] at h <;> cases h

/-- Claim C2 (amended): for every call to `build_drain_tx` with
`enforce_amount_sat = Some(X)` whose built pset satisfies the
no-underflow precondition (the native balance delta is nonpositive, in
`i64` range, and its magnitude covers the fee): the call never hits the
arithmetic fault, every returned transaction has net native outflow
minus fee exactly `X`, and an enforcement mismatch fails with the
`Generic` error variant. -/
theorem build_drain_tx_enforce_amount
    (rv signOk finOk : Bool) (pset : Pset) (policyAsset : String) (X : Nat)
    (hneg : lookupBalanceSat pset.details.balances policyAsset ≤ 0)
    (hrange : -lookupBalanceSat pset.details.balances policyAsset < 2 ^ 63)
    (hfee : (pset.details.fee : Int)
      ≤ -lookupBalanceSat pset.details.balances policyAsset) :
    (build_drain_tx rv (.ok pset) policyAsset signOk finOk (some X) ≠ none) ∧
    (∀ tx : Transaction,
      build_drain_tx rv (.ok pset) policyAsset signOk finOk (some X)
          = some (.ok tx) →
      -lookupBalanceSat tx.details.balances policyAsset - (tx.details.fee : Int)
          = (X : Int)) ∧
    (-lookupBalanceSat pset.details.balances policyAsset
        - (pset.details.fee : Int) ≠ (X : Int) →
      ∃ msg : String,
        build_drain_tx rv (.ok pset) policyAsset signOk finOk (some X)
          = some (.error (.generic msg))) := by
  have hval := enforceCheckValue_eq_of_le
    (lookupBalanceSat pset.details.balances policyAsset) pset.details.fee
    hneg hrange hfee
  cases rv with
  | false =>
    refine ⟨by simp [build_drain_tx], fun tx htx => ?_, fun hne =>
      ⟨"Recipient address is not a valid ElementsAddress", by simp [build_drain_tx]⟩⟩
    simp [build_drain_tx] at htx
  | true =>
    have hred : build_drain_tx true (.ok pset) policyAsset signOk finOk (some X)
        = if (-lookupBalanceSat pset.details.balances policyAsset
              - pset.details.fee).toNat = X then
            some (if signOk then
                if finOk then .ok (finalize pset)
                else .error (.lwkError "finalize failed")
              else .error (.generic "Failed to sign transaction"))
          else some (.error (.generic
            "Drain tx amount doesn't match enforce_amount_sat")) := by
      simp only [build_drain_tx, if_true]
      rw [hval]
    refine ⟨?_, fun tx htx => ?_, fun hne => ?_⟩
    · rw [hred]
      split_ifs <;> simp
    · rw [hred] at htx
      split_ifs at htx with hv hs hf
      · injection htx with h1
        injection h1 with h2
        subst h2
        simp only [finalize]
        omega
      · exact absurd htx (by simp)
      · exact absurd htx (by simp)
      · exact absurd htx (by simp)
    · refine ⟨"Drain tx amount doesn't match enforce_amount_sat", ?_⟩
      rw [hred]
      rw [if_neg (by omega)]

/-- Witness for C2 (amended): the spec section 8 scenario — a drain
pset spending 100,100 sat with a 100 sat fee passes enforcement for
`enforce_amount_sat = 100,000` and the returned transaction nets
exactly 100,000 sat. -/
theorem build_drain_tx_enforce_amount_witness :
    build_drain_tx true (.ok ⟨⟨[("lbtc", -100100)], 100⟩⟩) "lbtc" true true
        (some 100000) ≠ none ∧
    -lookupBalanceSat (⟨⟨[("lbtc", -100100)], 100⟩⟩ : Transaction).details.balances
        "lbtc" - ((⟨⟨[("lbtc", -100100)], 100⟩⟩ : Transaction).details.fee : Int)
      = (100000 : Int) := by
  have h := build_drain_tx_enforce_amount true true true
    ⟨⟨[("lbtc", -100100)], 100⟩⟩ "lbtc" 100000
    (by norm_num [lookupBalanceSat, List.lookup])
    (by norm_num [lookupBalanceSat, List.lookup])
    (by norm_num [lookupBalanceSat, List.lookup])
  exact ⟨h.1, h.2.1 ⟨⟨[("lbtc", -100100)], 100⟩⟩ (by decide)⟩

/-- Claim C10: the enforcement check of `build_drain_tx` evaluates
`((balance * -1) as u64) - fee` with a two's-complement cast and an
unguarded `u64` subtraction, the native balance delta defaulting to 0
when the pset's balance map has no native entry; the computed value
equals the mathematical `-balanceDelta - fee` precisely under the
precondition that the negated delta is at least the fee, and when the
delta is zero/absent or its magnitude is below the fee the subtraction
underflows (an arithmetic fault) instead of returning `Generic`. -/
theorem enforce_check_arithmetic_spec :
    (∀ (bal : Int) (fee : Nat), bal ≤ 0 → -bal < 2 ^ 63 → (fee : Int) ≤ -bal →
      enforceCheckValue bal fee = some ((-bal - fee).toNat)) ∧
    (∀ (bal : Int) (fee : Nat), bal ≤ 0 → -bal < 2 ^ 63 → -bal < (fee : Int) →
      enforceCheckValue bal fee = none) ∧
    (∀ (balances : List (String × Int)) (policyAsset : String),
      balances.lookup policyAsset = none →
      lookupBalanceSat balances policyAsset = 0) ∧
    (∀ (balances : List (String × Int)) (policyAsset : String) (fee X : Nat)
      (signOk finOk : Bool),
      balances.lookup policyAsset = none → 0 < fee →
      build_drain_tx true (.ok ⟨⟨balances, fee⟩⟩) policyAsset signOk finOk (some X)
        = none) := by
  have hdef : ∀ (balances : List (String × Int)) (policyAsset : String),
      balances.lookup policyAsset = none →
      lookupBalanceSat balances policyAsset = 0 := by
    intro balances policyAsset h
    unfold lookupBalanceSat
    rw [h]
  refine ⟨fun bal fee h1 h2 h3 => enforceCheckValue_eq_of_le bal fee h1 h2 h3,
    fun bal fee h1 h2 h3 => enforceCheckValue_underflow bal fee h1 h2 (by omega),
    hdef, ?_⟩
  intro balances policyAsset fee X signOk finOk hnone hfee
  have hz : lookupBalanceSat balances policyAsset = 0 := hdef _ _ hnone
  have hu : enforceCheckValue (lookupBalanceSat balances policyAsset) fee = none := by
    rw [hz]
    exact enforceCheckValue_underflow 0 fee (le_refl 0) (by omega) (by omega)
  simp only [build_drain_tx, if_true]
  rw [hu]

/-- Witness for C10: a delta of -100 with fee 30 computes 70; a delta
of -5 with fee 30 underflows; an empty balance map with fee 1000
makes `build_drain_tx` hit the arithmetic fault. -/
theorem enforce_check_arithmetic_spec_witness :
    enforceCheckValue (-100) 30 = some 70 ∧
    enforceCheckValue (-5) 30 = none ∧
    build_drain_tx true (.ok ⟨⟨[], 1000⟩⟩) "lbtc" true true (some 500) = none := by
  refine ⟨?_, ?_, ?_⟩
  · have h := enforce_check_arithmetic_spec.1 (-100) 30 (by omega) (by omega) (by omega)
    simpa using h
  · exact enforce_check_arithmetic_spec.2.1 (-5) 30 (by omega) (by omega) (by omega)
  · exact enforce_check_arithmetic_spec.2.2.2 [] "lbtc" 1000 500 true true rfl
      (by omega)

/-- Branch equations for `full_scan`, one per control path. -/
lemma full_scan_eq_electrum_error (e : PaymentError)
    (scanAttempt : Nat → Nat → Except ScanError Unit)
    (createRes : Except PaymentError Unit) (s : PersisterState) :
    full_scan (.error e) scanAttempt createRes s = ⟨s, .error e, 0, 0⟩ := rfl

lemma full_scan_eq_first_ok
    (scanAttempt : Nat → Nat → Except ScanError Unit)
    (createRes : Except PaymentError Unit) (s : PersisterState)
    (h0 : scanAttempt 0 (s.lastDerivationIndex.getD 0 + 5) = .ok ()) :
    full_scan (.ok ()) scanAttempt createRes s
      = ⟨{ s with lastScannedDerivationIndex := some (s.lastDerivationIndex.getD 0) },
          .ok (), 1, 0⟩ := by
  simp only [full_scan, h0]

lemma full_scan_eq_first_other (m : String)
    (scanAttempt : Nat → Nat → Except ScanError Unit)
    (createRes : Except PaymentError Unit) (s : PersisterState)
    (h0 : scanAttempt 0 (s.lastDerivationIndex.getD 0 + 5) = .error (.other m)) :
    full_scan (.ok ()) scanAttempt createRes s
      = ⟨{ s with lastScannedDerivationIndex := some (s.lastDerivationIndex.getD 0) },
          .error (ScanError.other m).toPaymentError, 1, 0⟩ := by
  simp only [full_scan, h0]

lemma full_scan_eq_create_error (e : PaymentError)
    (scanAttempt : Nat → Nat → Except ScanError Unit) (s : PersisterState)
    (h0 : scanAttempt 0 (s.lastDerivationIndex.getD 0 + 5)
      = .error .updateHeightTooOld) :
    full_scan (.ok ()) scanAttempt (.error e) s = ⟨s, .error e, 1, 1⟩ := by
  simp only [full_scan, h0]

lemma full_scan_eq_retry_error (e2 : ScanError)
    (scanAttempt : Nat → Nat → Except ScanError Unit) (s : PersisterState)
    (h0 : scanAttempt 0 (s.lastDerivationIndex.getD 0 + 5)
      = .error .updateHeightTooOld)
    (h1 : scanAttempt 1 (s.lastDerivationIndex.getD 0 + 5) = .error e2) :
    full_scan (.ok ()) scanAttempt (.ok ()) s
      = ⟨s, .error e2.toPaymentError, 2, 1⟩ := by
  simp only [full_scan, h0, h1]

lemma full_scan_eq_retry_ok
    (scanAttempt : Nat → Nat → Except ScanError Unit) (s : PersisterState)
    (h0 : scanAttempt 0 (s.lastDerivationIndex.getD 0 + 5)
      = .error .updateHeightTooOld)
    (h1 : scanAttempt 1 (s.lastDerivationIndex.getD 0 + 5) = .ok ()) :
    full_scan (.ok ()) scanAttempt (.ok ()) s
      = ⟨{ s with lastScannedDerivationIndex := some (s.lastDerivationIndex.getD 0) },
          .ok (), 2, 1⟩ := by
  simp only [full_scan, h0, h1]

/-- Claim C3: after every completed (successful) `full_scan`, the value
persisted via `set_last_scanned_derivation_index` is exactly the
derivation index read from the persister before the scan started. -/
theorem full_scan_checkpoint_pre_scan
    (electrumRes : Except PaymentError Unit)
    (scanAttempt : Nat → Nat → Except ScanError Unit)
    (createRes : Except PaymentError Unit) (s : PersisterState)
    (h : (full_scan electrumRes scanAttempt createRes s).result = .ok ()) :
    (full_scan electrumRes scanAttempt createRes s).persister.lastScannedDerivationIndex
      = some (s.lastDerivationIndex.getD 0) := by
  rcases electrumRes with e | u
  · simp only [full_scan] at h
    cases h
  · cases u
    rcases h0 : scanAttempt 0 (s.lastDerivationIndex.getD 0 + 5) with e0 | u0
    · rcases e0 with _ | m
      · rcases createRes with ec | uc
        · simp only [full_scan, h0] at h
          cases h
        · cases uc
          rcases h1 : scanAttempt 1 (s.lastDerivationIndex.getD 0 + 5) with e1 | u1
          · simp only [full_scan, h0, h1] at h
            cases h
          · cases u1
            simp only [full_scan, h0, h1]
      · simp only [full_scan, h0] at h
        cases h
    · cases u0
      simp only [full_scan, h0]

/-- Witness for C3: a successful first scan attempt persists the
pre-scan index 7 as the last-scanned checkpoint. -/
theorem full_scan_checkpoint_pre_scan_witness :
    (full_scan (.ok ()) (fun _ _ => .ok ()) (.ok ())
        ⟨some 7, none, []⟩).persister.lastScannedDerivationIndex = some 7 :=
  full_scan_checkpoint_pre_scan (.ok ()) (fun _ _ => .ok ()) (.ok ())
    ⟨some 7, none, []⟩ rfl

/-- Claim C4: `full_scan` performs at most two scan invocations and at
most one wallet-store recreation; an `UpdateHeightTooOld` failure of
the first attempt recreates the store and retries exactly once, the
retry's failure being returned to the caller; any other scan error is
returned after a single attempt with no recreation. -/
theorem full_scan_wipe_retry_once
    (electrumRes : Except PaymentError Unit)
    (scanAttempt : Nat → Nat → Except ScanError Unit)
    (createRes : Except PaymentError Unit) (s : PersisterState) :
    (full_scan electrumRes scanAttempt createRes s).scansPerformed ≤ 2 ∧
    (full_scan electrumRes scanAttempt createRes s).walletRecreations ≤ 1 ∧
    (electrumRes = .ok () →
      scanAttempt 0 (s.lastDerivationIndex.getD 0 + 5) = .error .updateHeightTooOld →
      createRes = .ok () →
      (full_scan electrumRes scanAttempt createRes s).walletRecreations = 1 ∧
      (full_scan electrumRes scanAttempt createRes s).scansPerformed = 2 ∧
      (∀ e2 : ScanError,
        scanAttempt 1 (s.lastDerivationIndex.getD 0 + 5) = .error e2 →
        (full_scan electrumRes scanAttempt createRes s).result
          = .error e2.toPaymentError)) ∧
    (electrumRes = .ok () → ∀ m : String,
      scanAttempt 0 (s.lastDerivationIndex.getD 0 + 5) = .error (.other m) →
      (full_scan electrumRes scanAttempt createRes s).walletRecreations = 0 ∧
      (full_scan electrumRes scanAttempt createRes s).scansPerformed = 1 ∧
      (full_scan electrumRes scanAttempt createRes s).result
        = .error (ScanError.other m).toPaymentError) := by
  have hbounds :
      (full_scan electrumRes scanAttempt createRes s).scansPerformed ≤ 2 ∧
      (full_scan electrumRes scanAttempt createRes s).walletRecreations ≤ 1 := by
    rcases electrumRes with e | u
    · rw [full_scan_eq_electrum_error]
      exact ⟨by norm_num, by norm_num⟩
    · cases u
      rcases h0 : scanAttempt 0 (s.lastDerivationIndex.getD 0 + 5) with e0 | u0
      · rcases e0 with _ | m
        · rcases createRes with ec | uc
          · rw [full_scan_eq_create_error ec scanAttempt s h0]
            exact ⟨by norm_num, by norm_num⟩
          · cases uc
            rcases h1 : scanAttempt 1 (s.lastDerivationIndex.getD 0 + 5) with e1 | u1
            · rw [full_scan_eq_retry_error e1 scanAttempt s h0 h1]
              exact ⟨by norm_num, by norm_num⟩
            · cases u1
              rw [full_scan_eq_retry_ok scanAttempt s h0 h1]
              exact ⟨by norm_num, by norm_num⟩
        · rw [full_scan_eq_first_other m scanAttempt createRes s h0]
          exact ⟨by norm_num, by norm_num⟩
      · cases u0
        rw [full_scan_eq_first_ok scanAttempt createRes s h0]
        exact ⟨by norm_num, by norm_num⟩
  refine ⟨hbounds.1, hbounds.2, ?_, ?_⟩
  · intro he h0 hc
    subst he
    subst hc
    rcases h1 : scanAttempt 1 (s.lastDerivationIndex.getD 0 + 5) with e1 | u1
    · rw [full_scan_eq_retry_error e1 scanAttempt s h0 h1]
      refine ⟨rfl, rfl, fun e2 he2 => ?_⟩
      injection he2 with he3
      rw [he3]
    · cases u1
      rw [full_scan_eq_retry_ok scanAttempt s h0 h1]
      refine ⟨rfl, rfl, fun e2 he2 => ?_⟩
      cases he2
  · intro he m hm
    subst he
    rw [full_scan_eq_first_other m scanAttempt createRes s hm]
    exact ⟨rfl, rfl, rfl⟩

/-- Witness for C4: a first-attempt `UpdateHeightTooOld` with a
successful store recreation and a failing retry yields exactly two
scans, one recreation, and the retry's error. -/
theorem full_scan_wipe_retry_once_witness :
    (full_scan (.ok ()) (fun k _ => if k = 0 then .error .updateHeightTooOld
        else .error (.other "boom")) (.ok ())
      ⟨some 7, none, []⟩).walletRecreations = 1 ∧
    (full_scan (.ok ()) (fun k _ => if k = 0 then .error .updateHeightTooOld
        else .error (.other "boom")) (.ok ())
      ⟨some 7, none, []⟩).scansPerformed = 2 ∧
    (full_scan (.ok ()) (fun k _ => if k = 0 then .error .updateHeightTooOld
        else .error (.other "boom")) (.ok ())
      ⟨some 7, none, []⟩).result = .error (.lwkError "boom") := by
  have h := (full_scan_wipe_retry_once (.ok ())
    (fun k _ => if k = 0 then .error .updateHeightTooOld else .error (.other "boom"))
    (.ok ()) ⟨some 7, none, []⟩).2.2.1 rfl (by simp) rfl
  exact ⟨h.1, h.2.1, h.2.2 (.other "boom") (by simp)⟩

/-- Counterexample for C9: a run in which the scan ran (twice) and
returned an error, yet the last-scanned checkpoint was not written —
the wipe-and-retry path returns through `?` before the
`set_last_scanned_derivation_index` call. -/
theorem full_scan_checkpoint_error_counterexample :
    (full_scan (.ok ()) (fun _ _ => .error .updateHeightTooOld) (.ok ())
        ⟨some 7, none, []⟩).scansPerformed = 2 ∧
    (full_scan (.ok ()) (fun _ _ => .error .updateHeightTooOld) (.ok ())
        ⟨some 7, none, []⟩).result ≠ .ok () ∧
    (full_scan (.ok ()) (fun _ _ => .error .updateHeightTooOld) (.ok ())
        ⟨some 7, none, []⟩).persister.lastScannedDerivationIndex ≠ some 7 := by
  refine ⟨rfl, ?_, ?_⟩ <;> decide

/-- Claim C9 (amended): `full_scan` writes the pre-scan checkpoint on
success and on any first-attempt scan error other than
`UpdateHeightTooOld` (the write is not conditioned on scan success),
but on the `UpdateHeightTooOld` wipe-and-retry path a failure of the
store recreation or of the retried scan returns early and leaves the
persister unchanged. -/
theorem full_scan_checkpoint_amended
    (scanAttempt : Nat → Nat → Except ScanError Unit)
    (createRes : Except PaymentError Unit) (s : PersisterState) :
    (scanAttempt 0 (s.lastDerivationIndex.getD 0 + 5) = .ok () →
      (full_scan (.ok ()) scanAttempt createRes s).persister.lastScannedDerivationIndex
        = some (s.lastDerivationIndex.getD 0)) ∧
    (∀ m : String,
      scanAttempt 0 (s.lastDerivationIndex.getD 0 + 5) = .error (.other m) →
      (full_scan (.ok ()) scanAttempt createRes s).persister.lastScannedDerivationIndex
          = some (s.lastDerivationIndex.getD 0) ∧
        (full_scan (.ok ()) scanAttempt createRes s).result ≠ .ok ()) ∧
    (scanAttempt 0 (s.lastDerivationIndex.getD 0 + 5) = .error .updateHeightTooOld →
      (createRes = .ok () → scanAttempt 1 (s.lastDerivationIndex.getD 0 + 5) = .ok () →
        (full_scan (.ok ()) scanAttempt createRes s).persister.lastScannedDerivationIndex
          = some (s.lastDerivationIndex.getD 0)) ∧
      ((createRes ≠ .ok () ∨
          scanAttempt 1 (s.lastDerivationIndex.getD 0 + 5) ≠ .ok ()) →
        (full_scan (.ok ()) scanAttempt createRes s).persister = s)) := by
  unfold full_scan
  refine ⟨fun h0 => ?_, fun m h0 => ?_, fun h0 => ⟨fun hc h1 => ?_, fun hbad => ?_⟩⟩
  · simp only [h0]
  · simp only [h0]
    exact ⟨by simp, by simp⟩
  · simp only [h0, hc, h1]
  · simp only [h0]
    rcases createRes with ec | uc
    · rfl
    · cases uc
      rcases h1 : scanAttempt 1 (s.lastDerivationIndex.getD 0 + 5) with e1 | u1
      · rfl
      · cases u1
        rcases hbad with hbad | hbad
        · exact absurd rfl hbad
        · exact absurd h1 hbad

/-- Witness for C9 (amended): a first-attempt failure other than
`UpdateHeightTooOld` still persists the checkpoint while returning the
error; a failing retry leaves the persister untouched. -/
theorem full_scan_checkpoint_amended_witness :
    ((full_scan (.ok ()) (fun _ _ => .error (.other "io"))
        (.ok ()) ⟨some 7, none, []⟩).persister.lastScannedDerivationIndex = some 7 ∧
      (full_scan (.ok ()) (fun _ _ => .error (.other "io"))
        (.ok ()) ⟨some 7, none, []⟩).result ≠ .ok ()) ∧
    (full_scan (.ok ()) (fun _ _ => .error .updateHeightTooOld)
        (.error .persistError) ⟨some 7, none, []⟩).persister
      = ⟨some 7, none, []⟩ := by
  constructor
  · exact (full_scan_checkpoint_amended (fun _ _ => .error (.other "io"))
      (.ok ()) ⟨some 7, none, []⟩).2.1 "io" rfl
  · exact ((full_scan_checkpoint_amended (fun _ _ => .error .updateHeightTooOld)
      (.error .persistError) ⟨some 7, none, []⟩).2.2 rfl).2 (Or.inl (by simp))

/-- Counterexample for C5: with a persisted last-derivation-index of 3
and no reserved addresses (so no expired reservation is available at
either call), two sequential `next_unused_address` calls both return
derivation index 4 — the `Some`-branch of `next_derivation_index` never
persists, so the state does not advance. -/
theorem next_unused_address_counterexample :
    (next_expired_reserved_address (10 : Nat) ⟨some 3, none, []⟩).1 = none ∧
    (next_unused_address ⟨10, 0⟩ ⟨some 3, none, []⟩).1 = 4 ∧
    (next_expired_reserved_address (10 : Nat)
        (next_unused_address ⟨10, 0⟩ ⟨some 3, none, []⟩).2).1 = none ∧
    (next_unused_address ⟨10, 0⟩
        (next_unused_address ⟨10, 0⟩ ⟨some 3, none, []⟩).2).1 = 4 := by
  decide

/-- Claim C5 (amended): when the persister holds no last-derivation
index before the first call (the fresh-derivation case the claim's "in
particular" clause describes) and no expired reserved address is
available, the first call returns the wallet's next unused index and
persists it, and the second call derives the strictly greater successor
index — the two calls never return the same derivation index. -/
theorem next_unused_address_fresh_distinct (w : WolletState) (s : PersisterState)
    (hexp : (next_expired_reserved_address w.tipHeight s).1 = none)
    (hfresh : s.lastDerivationIndex = none) :
    (next_unused_address w s).1 = w.nextUnusedIndex ∧
    (next_unused_address w (next_unused_address w s).2).1 = w.nextUnusedIndex + 1 ∧
    (next_unused_address w (next_unused_address w s).2).1
      ≠ (next_unused_address w s).1 := by
  have hsel : selectSoonestExpired w.tipHeight s.reservedAddresses = none := by
    unfold next_expired_reserved_address at hexp
    rcases hf : selectSoonestExpired w.tipHeight s.reservedAddresses with _ | r
    · rfl
    · rw [hf] at hexp
      cases hexp
  have h1 : next_unused_address w s
      = (w.nextUnusedIndex, { s with lastDerivationIndex := some w.nextUnusedIndex }) := by
    simp [next_unused_address, next_expired_reserved_address, hsel,
      next_derivation_index, hfresh, wolletAddress]
  have h2 : next_unused_address w
        { s with lastDerivationIndex := some w.nextUnusedIndex }
      = (w.nextUnusedIndex + 1,
          { s with lastDerivationIndex := some w.nextUnusedIndex }) := by
    simp [next_unused_address, next_expired_reserved_address, hsel,
      next_derivation_index, wolletAddress]
  rw [h1, h2]
  exact ⟨rfl, rfl, by omega⟩

/-- Witness for C5 (amended): a fresh persister with an empty reserved
set issues index 0 then index 1. -/
theorem next_unused_address_fresh_distinct_witness :
    (next_unused_address ⟨10, 0⟩ ⟨none, none, []⟩).1 = 0 ∧
    (next_unused_address ⟨10, 0⟩
        (next_unused_address ⟨10, 0⟩ ⟨none, none, []⟩).2).1 = 0 + 1 ∧
    (next_unused_address ⟨10, 0⟩
        (next_unused_address ⟨10, 0⟩ ⟨none, none, []⟩).2).1
      ≠ (next_unused_address ⟨10, 0⟩ ⟨none, none, []⟩).1 :=
  next_unused_address_fresh_distinct ⟨10, 0⟩ ⟨none, none, []⟩ (by decide) rfl

/-- Helper: the positional digit codec round-trips on any duplicate-free
alphabet with at least two symbols. -/
lemma alphaDecode_alphaEncode (alpha : List Char) (hnd : alpha.Nodup)
    (hlen : 1 < alpha.length) (n : Nat) :
    alphaDecode alpha (alphaEncode alpha n) = some n := by
  unfold alphaDecode alphaEncode
  have hdig : ∀ d ∈ Nat.digits alpha.length n, d < alpha.length :=
    fun d hd => Nat.digits_lt_base hlen hd
  have hall : ((Nat.digits alpha.length n).map (fun d => alpha.getD d ' ')).all
      (fun c => decide (c ∈ alpha)) = true := by
    rw [List.all_eq_true]
    intro c hc
    rw [List.mem_map] at hc
    obtain ⟨d, hd, rfl⟩ := hc
    have hdl : d < alpha.length := hdig d hd
    rw [List.getD_eq_getElem alpha ' ' hdl]
    simpa using List.getElem_mem alpha d hdl
  simp only [hall, if_pos, List.map_map]
  have hmap : (Nat.digits alpha.length n).map
      ((fun c => (alpha.indexOf c : Nat)) ∘ (fun d => alpha.getD d ' '))
        = Nat.digits alpha.length n := by
    have hid : ∀ d ∈ Nat.digits alpha.length n,
        ((fun c => (alpha.indexOf c : Nat)) ∘ (fun d => alpha.getD d ' ')) d = d := by
      intro d hd
      have hdl : d < alpha.length := hdig d hd
      simp only [Function.comp]
      rw [List.getD_eq_getElem alpha ' ' hdl]
      exact List.indexOf_getElem hnd d hdl
    calc (Nat.digits alpha.length n).map
          ((fun c => (alpha.indexOf c : Nat)) ∘ (fun d => alpha.getD d ' '))
        = (Nat.digits alpha.length n).map id := List.map_congr_left hid
      _ = Nat.digits alpha.length n := List.map_id _
  rw [hmap, Nat.ofDigits_digits]

/-- Helper: decoding a freshly encoded recoverable signature recovers
it. -/
lemma zbase32DecodeSig_encode (sig : RecoverableSig) :
    zbase32DecodeSig (zbase32EncodeSig sig) = some sig := by
  unfold zbase32DecodeSig zbase32EncodeSig
  rw [alphaDecode_alphaEncode zbase32Alphabet (by decide) (by decide)]
  simp [Encodable.encodek]

/-- Claim C7: message-signing round trip — for every message, signing
it with `sign_message` (double-SHA256 of the fixed domain-separation
prefix concatenated with the message, recoverable signature,
zbase32-encoded) and calling `check_message` with the same message, the
wallet's own pubkey and the produced signature returns `true`; and
`check_message` returns `false` (rather than raising) for every
malformed signature string. -/
theorem sign_check_message_spec :
    (∀ (signer : SignerModel) (message : String),
      check_message message (pubkeyToString signer.pubkey)
        (sign_message signer message) = .ok true) ∧
    (∀ (message : String) (pk : Nat) (signature : String),
      zbase32DecodeSig signature = none →
      check_message message (pubkeyToString pk) signature = .ok false) := by
  constructor
  · intro signer message
    unfold check_message pubkeyToString
    rw [alphaDecode_alphaEncode decimalAlphabet (by decide) (by decide)]
    unfold lightningVerify sign_message sign_ecdsa_recoverable
    rw [zbase32DecodeSig_encode]
    simp
  · intro message pk signature hmal
    unfold check_message pubkeyToString
    rw [alphaDecode_alphaEncode decimalAlphabet (by decide) (by decide)]
    unfold lightningVerify
    rw [hmal]

/-- Witness for C7 (malformed-signature clause): the one-character
string with a symbol outside the zbase32 alphabet is rejected with
`false`, not an error. -/
theorem sign_check_message_spec_witness :
    check_message "Hello, Liquid!" (pubkeyToString 5) "!" = .ok false :=
  sign_check_message_spec.2 "Hello, Liquid!" 5 "!" (by decide)

/-- Helper: re-applying a claim observation changes nothing. -/
lemma applyClaim_applyClaim (r : SwapLegRecord) (c : HistoryTxId) :
    applyClaim (applyClaim r c) c = applyClaim r c := by
  unfold applyClaim
  split_ifs <;> rfl

/-- Helper: a non-terminal `resolveCore` result is a fixed point of
`resolveCore` under the same matched transactions and tip. -/
lemma resolveCore_stable (r : SwapLegRecord) (m : MatchedTxs) (tip : Nat)
    (h : (resolveCore r m tip).state.isTerminal = false) :
    resolveCore (resolveCore r m tip) m tip = resolveCore r m tip := by
  obtain ⟨mc, mrf, ml⟩ := m
  rcases mc with _ | c
  · rcases mrf with _ | rf
    · rcases ml with _ | l
      · by_cases ht : r.timeoutHeight < tip
        · simp [resolveCore, if_pos ht]
        · simp [resolveCore, if_neg ht]
      · by_cases ht : r.timeoutHeight < tip
        · simp [resolveCore, if_pos ht]
        · by_cases hl : l.isConfirmed <;>
            simp [resolveCore, if_neg ht, hl]
    · simp only [resolveCore] at h
      simp [SwapState.isTerminal] at h
  · rcases mrf with _ | rf
    · simp only [resolveCore] at h ⊢
      by_cases hc : c.isConfirmed
      · simp only [applyClaim, if_pos hc] at h
        simp [SwapState.isTerminal] at h
      · simp [applyClaim, if_neg hc]
    · simp only [resolveCore] at h ⊢
      by_cases hmt : txMaturity tip rf < txMaturity tip c
      · rw [if_pos hmt] at h ⊢
        by_cases hc : c.isConfirmed
        · simp only [applyClaim, if_pos hc] at h
          simp [SwapState.isTerminal] at h
        · rw [if_pos hmt]
          simp [applyClaim, if_neg hc]
      · rw [if_neg hmt] at h
        simp [SwapState.isTerminal] at h

/-- Helper: `resolveLeg` is idempotent under fixed inputs. -/
lemma resolveLeg_idem (r : SwapLegRecord) (m : MatchedTxs) (tip : Nat) :
    resolveLeg (resolveLeg r m tip) m tip = resolveLeg r m tip := by
  unfold resolveLeg
  by_cases h : r.state.isTerminal
  · simp [h]
  · simp only [h, Bool.false_eq_true, if_false]
    by_cases h2 : (resolveCore r m tip).state.isTerminal
    · simp [h, h2]
    · simp only [Bool.not_eq_true] at h2
      simp [h, h2, resolveCore_stable r m tip h2]

/-- Helper: `resolveChain` is idempotent under fixed inputs. -/
lemma resolveChain_idem (r : ChainSwapRecord) (mUser mServer : MatchedTxs)
    (tip : Nat) :
    resolveChain (resolveChain r mUser mServer tip) mUser mServer tip
      = resolveChain r mUser mServer tip := by
  unfold resolveChain
  by_cases h : r.state.isTerminal
  · simp [h]
  · simp only [h, Bool.false_eq_true, if_false]
    by_cases h2 : (combineStates (resolveLeg r.userLeg mUser tip).state
        (resolveLeg r.serverLeg mServer tip).state).isTerminal
    · simp [h, h2]
    · simp [h, h2, resolveLeg_idem]

/-- Claim C8: recovery idempotence — for all four swap kinds, applying
the handler's resolve function twice in a row with the same matched
transactions and tip yields the same record as applying it once, and
terminal states are absorbing: resolve on an already-terminal record is
a no-op. -/
theorem recovery_resolve_idempotent :
    (∀ (r : SwapLegRecord) (m : MatchedTxs) (tip : Nat),
      handle_receive_swap (handle_receive_swap r m tip) m tip
        = handle_receive_swap r m tip) ∧
    (∀ (r : SwapLegRecord) (m : MatchedTxs) (tip : Nat),
      handle_send_swap (handle_send_swap r m tip) m tip
        = handle_send_swap r m tip) ∧
    (∀ (r : ChainSwapRecord) (mUser mServer : MatchedTxs) (tip : Nat),
      handle_chain_receive_swap (handle_chain_receive_swap r mUser mServer tip)
          mUser mServer tip
        = handle_chain_receive_swap r mUser mServer tip) ∧
    (∀ (r : ChainSwapRecord) (mUser mServer : MatchedTxs) (tip : Nat),
      handle_chain_send_swap (handle_chain_send_swap r mUser mServer tip)
          mUser mServer tip
        = handle_chain_send_swap r mUser mServer tip) ∧
    (∀ (r : SwapLegRecord) (m : MatchedTxs) (tip : Nat),
      r.state.isTerminal = true → handle_receive_swap r m tip = r) ∧
    (∀ (r : SwapLegRecord) (m : MatchedTxs) (tip : Nat),
      r.state.isTerminal = true → handle_send_swap r m tip = r) ∧
    (∀ (r : ChainSwapRecord) (mUser mServer : MatchedTxs) (tip : Nat),
      r.state.isTerminal = true → handle_chain_receive_swap r mUser mServer tip = r) ∧
    (∀ (r : ChainSwapRecord) (mUser mServer : MatchedTxs) (tip : Nat),
      r.state.isTerminal = true → handle_chain_send_swap r mUser mServer tip = r) := by
  refine ⟨fun r m tip => resolveLeg_idem r m tip,
    fun r m tip => resolveLeg_idem r m tip,
    fun r mu ms tip => resolveChain_idem r mu ms tip,
    fun r mu ms tip => resolveChain_idem r mu ms tip,
    fun r m tip h => ?_, fun r m tip h => ?_,
    fun r mu ms tip h => ?_, fun r mu ms tip h => ?_⟩ <;>
    simp [handle_receive_swap, handle_send_swap, handle_chain_receive_swap,
      handle_chain_send_swap, resolveLeg, resolveChain, h]

/-- Witness for C8 (terminal-absorbing clauses): a completed receive
swap and a refunded chain swap are untouched by their handlers. -/
theorem recovery_resolve_idempotent_witness :
    handle_receive_swap ⟨.complete, some "c", none, some "l", 100⟩
        ⟨none, none, none⟩ 150 = ⟨.complete, some "c", none, some "l", 100⟩ ∧
    handle_chain_send_swap
        ⟨.refunded, ⟨.refunded, none, some "r", none, 100⟩,
          ⟨.refunded, none, some "r2", none, 90⟩⟩ ⟨none, none, none⟩
        ⟨none, none, none⟩ 150
      = ⟨.refunded, ⟨.refunded, none, some "r", none, 100⟩,
          ⟨.refunded, none, some "r2", none, 90⟩⟩ := by
  constructor
  · exact recovery_resolve_idempotent.2.2.2.2.1
      ⟨.complete, some "c", none, some "l", 100⟩ ⟨none, none, none⟩ 150 rfl
  · exact recovery_resolve_idempotent.2.2.2.2.2.2.2
      ⟨.refunded, ⟨.refunded, none, some "r", none, 100⟩,
        ⟨.refunded, none, some "r2", none, 90⟩⟩ ⟨none, none, none⟩
      ⟨none, none, none⟩ 150 rfl

end BreezSdkLiquid
